import Mathlib

/-!
Verification development for the RuntimeImageLoader plugin
(`FRuntimeImageUtils` in RuntimeImageUtils.cpp and `FTransformImageParams`
in RuntimeImageReader.h).

The image wrappers, the file system and the TGA/PNG helper routines are
external collaborators; the embedding represents each one by the data the
translated functions observe about it. Machine integers stay within their
ranges in every function modelled here (dimensions are non-negative and far
below 2^31), so they are embedded as `Nat`/`Int`.
-/

set_option autoImplicit false

namespace RuntimeImageLoader

/-- `ERGBFormat`: the channel layout an image wrapper reports. -/
inductive ERGBFormat
  | Gray
  | RGBA
  | BGRA
  | BGRE
  | Invalid
  deriving DecidableEq, Repr

/-- `ETextureSourceFormat`: the canonical texture source format tags. -/
inductive ETextureSourceFormat
  | TSF_Invalid
  | TSF_G8
  | TSF_BGRA8
  | TSF_BGRE8
  | TSF_RGBA16
  | TSF_RGBA16F
  | TSF_G16
  deriving DecidableEq, Repr

/-- `EPixelFormat`: the platform pixel formats `CreateDummyTexture` can pick. -/
inductive EPixelFormat
  | PF_G8
  | PF_G16
  | PF_B8G8R8A8
  | PF_R16G16B16A16_SINT
  | PF_FloatRGBA
  deriving DecidableEq, Repr

/-- `ETextureCompressionSettings`, restricted to the values this code
inspects: the grayscale hint and everything else. -/
inductive ETextureCompressionSettings
  | TC_Default
  | TC_Grayscale
  deriving DecidableEq, Repr

/-- Modelled from the spec: `FRuntimeImageData` (RuntimeImageData.h is not
under src/) is the DecodedImage entity — width, height, canonical pixel
format tag, a color-space flag (`SRGB` = gamma-encoded), a
compression-settings hint, and a last-modified timestamp inherited from the
source. The raw pixel byte payload is tightly packed pixel data; its
contents are outside this model. Timestamps (`FDateTime`) are embedded as
`Int` ticks. -/
structure FRuntimeImageData where
  SizeX : Nat := 0
  SizeY : Nat := 0
  Format : ETextureSourceFormat := .TSF_Invalid
  SRGB : Bool := true
  CompressionSettings : ETextureCompressionSettings := .TC_Default
  ModificationTime : Int := 0
  deriving DecidableEq, Repr

/-- Modelled from the spec: `FRuntimeImageData::Init2D(Width, Height, Format,
Data)` records the decoded dimensions and canonical format tag of the pixel
buffer (the byte payload itself is outside the model); the remaining
metadata fields keep their values. -/
def FRuntimeImageData.init2D (img : FRuntimeImageData) (w h : Nat)
    (fmt : ETextureSourceFormat) : FRuntimeImageData :=
  { img with SizeX := w, SizeY := h, Format := fmt }

/-- `FMath::IsPowerOfTwo` on an unsigned value: `(Value & (Value - 1)) == 0`
(so `0` counts as a power of two, as in the engine). -/
def isPowerOfTwo (n : Nat) : Bool :=
  (n &&& (n - 1)) == 0

/-- `FRuntimeImageUtils::IsImportResolutionValid`. `GMaxTextureMipCount` is a
global of the engine, passed here as the parameter `gmax`. -/
def isImportResolutionValid (gmax : Nat) (Width Height : Nat)
    (bAllowNonPowerOfTwo : Bool) : Bool :=
  let MAX_TEXTURE_SIZE : Nat := 8192
  let MaximumSupportedResolution : Nat := 1 <<< (gmax - 1)
  let bValid := true
  let bValid :=
    if Width > MaximumSupportedResolution || Height > MaximumSupportedResolution then
      false
    else bValid
  let bIsPowerOfTwo := isPowerOfTwo Width && isPowerOfTwo Height
  let bValid := if !bAllowNonPowerOfTwo && !bIsPowerOfTwo then false else bValid
  let bValid := if Width > MAX_TEXTURE_SIZE || Height > MAX_TEXTURE_SIZE then false else bValid
  bValid

/-- The error text `Texture resolution is not supported: %d x %d`. -/
def resolutionNotSupportedError (w h : Nat) : String :=
  "Texture resolution is not supported: " ++ toString w ++ " x " ++ toString h

/-- The observable behaviour of one `IImageWrapper` on the current buffer:
whether `IsValid() && SetCompressed(Buffer, Length)` recognized the bytes,
the reported dimensions, bit depth and channel layout, and whether `GetRaw`
succeeds (the decoded byte payload is outside the model). -/
structure WrapperState where
  accepts : Bool
  width : Nat
  height : Nat
  bitDepth : Nat
  format : ERGBFormat
  getRawOk : Bool
  deriving DecidableEq, Repr

/-- The texture-source-format selection of the PNG branch
(RuntimeImageUtils.cpp lines 76–110): returns the chosen
`(TextureFormat, Format, BitDepth)` triple after the branch's reassignments. -/
def pngSelectFormat (Format : ERGBFormat) (BitDepth : Nat) :
    ETextureSourceFormat × ERGBFormat × Nat :=
  if Format == .Gray then
    if BitDepth ≤ 8 then (.TSF_G8, .Gray, 8)
    else if BitDepth == 16 then (.TSF_RGBA16, .RGBA, 16)
    else (.TSF_Invalid, Format, BitDepth)
  else if Format == .RGBA || Format == .BGRA then
    if BitDepth ≤ 8 then (.TSF_BGRA8, .BGRA, 8)
    else if BitDepth == 16 then (.TSF_RGBA16, .RGBA, 16)
    else (.TSF_Invalid, Format, BitDepth)
  else (.TSF_Invalid, Format, BitDepth)

/-- The texture-source-format selection of the JPEG branch
(RuntimeImageUtils.cpp lines 158–180). -/
def jpegSelectFormat (Format : ERGBFormat) (BitDepth : Nat) :
    ETextureSourceFormat × ERGBFormat × Nat :=
  if Format == .Gray then
    if BitDepth ≤ 8 then (.TSF_G8, .Gray, 8)
    else (.TSF_Invalid, Format, BitDepth)
  else if Format == .RGBA then
    if BitDepth ≤ 8 then (.TSF_BGRA8, .BGRA, 8)
    else (.TSF_Invalid, Format, BitDepth)
  else (.TSF_Invalid, Format, BitDepth)

/-- Outcome of `ImportBufferAsImage`: the returned Bool together with the
final values of the by-reference `OutImage` and `OutError` arguments. -/
structure ImportOutcome where
  ret : Bool
  img : FRuntimeImageData
  err : String
  deriving DecidableEq, Repr

/-- The PNG branch of `ImportBufferAsImage`, entered once the PNG wrapper has
accepted the buffer. `FPNGHelpers::FillZeroAlphaPNGData` rewrites raw pixel
bytes only and is outside the model. -/
def pngPath (gmax : Nat) (png : WrapperState) (img : FRuntimeImageData)
    (err : String) : ImportOutcome :=
  if !(isImportResolutionValid gmax png.width png.height true) then
    { ret := false, img, err := resolutionNotSupportedError png.width png.height }
  else
    let sel := pngSelectFormat png.format png.bitDepth
    let TextureFormat := sel.1
    let BitDepth := sel.2.2
    if BitDepth == 16 then
      { ret := false, img, err := "16bit PNG file is not supported" }
    else if TextureFormat == .TSF_Invalid then
      { ret := false, img, err := "PNG file contains data in an unsupported format." }
    else if png.getRawOk then
      let img := img.init2D png.width png.height TextureFormat
      let img := { img with SRGB := BitDepth < 16 }
      { ret := true, img, err }
    else
      { ret := false, img, err := "Failed to decode PNG." }

/-- The JPEG branch of `ImportBufferAsImage`. -/
def jpegPath (gmax : Nat) (jpeg : WrapperState) (img : FRuntimeImageData)
    (err : String) : ImportOutcome :=
  if !(isImportResolutionValid gmax jpeg.width jpeg.height true) then
    { ret := false, img, err := resolutionNotSupportedError jpeg.width jpeg.height }
  else
    let sel := jpegSelectFormat jpeg.format jpeg.bitDepth
    let TextureFormat := sel.1
    let BitDepth := sel.2.2
    if TextureFormat == .TSF_Invalid then
      { ret := false, img, err := "JPEG file contains data in an unsupported format." }
    else if jpeg.getRawOk then
      let img := img.init2D jpeg.width jpeg.height TextureFormat
      let img := { img with SRGB := BitDepth < 16 }
      { ret := true, img, err }
    else
      { ret := false, img, err := "Failed to decode JPEG." }

/-- The BMP branch of `ImportBufferAsImage`: always initializes the image as
`TSF_BGRA8` and never touches the color-space flag. -/
def bmpPath (gmax : Nat) (bmp : WrapperState) (img : FRuntimeImageData)
    (err : String) : ImportOutcome :=
  if !(isImportResolutionValid gmax bmp.width bmp.height true) then
    { ret := false, img, err := resolutionNotSupportedError bmp.width bmp.height }
  else if bmp.getRawOk then
    { ret := true, img := img.init2D bmp.width bmp.height .TSF_BGRA8, err }
  else
    { ret := false, img, err := "Failed to decode BMP." }

/-- The fields of `FTGAHelpers::FTGAFileHeader` that `ImportBufferAsImage`
reads from the leading bytes of the buffer. -/
structure FTGAFileHeader where
  ColorMapType : Nat
  ImageTypeCode : Nat
  BitsPerPixel : Nat
  Width : Nat
  Height : Nat
  deriving DecidableEq, Repr

/-- Modelled from the spec: `sizeof(FTGAHelpers::FTGAFileHeader)`
(TGAHelpers.h is not under src/) — the packed TGA file header occupies 18
bytes. -/
def tgaHeaderSize : Nat := 18

/-- The TGA acceptance guard of `ImportBufferAsImage` (RuntimeImageUtils.cpp
lines 247–253): the buffer is at least one header long and the header's
color-map/type-code combination is supported. -/
def tgaHeaderAccepted (length : Nat) (TGA : FTGAFileHeader) : Bool :=
  length ≥ tgaHeaderSize &&
    ((TGA.ColorMapType == 0 && TGA.ImageTypeCode == 2) ||
     (TGA.ColorMapType == 0 && TGA.ImageTypeCode == 3) ||
     (TGA.ColorMapType == 0 && TGA.ImageTypeCode == 10) ||
     (TGA.ColorMapType == 1 && TGA.ImageTypeCode == 1 && TGA.BitsPerPixel == 8))

/-- Modelled from the spec: `FTGAHelpers::DecompressTGA` (TGAHelpers.cpp is
not under src/). Per the spec's format dispatch, the decoder normalizes an
accepted TGA payload into the canonical formats: an 8-bit grayscale payload
(type 3) becomes grayscale-8 carrying the grayscale compression hint, a
grayscale bit depth other than 8 is not representable and fails, and the
true-color subformats become BGRA-8. `payloadOk` stands for decoder-internal
payload failures on the remaining subformats. The decoder writes dimensions,
format tag and compression hint into the image; it does not touch the error
string, the color-space flag or the timestamp. -/
def decompressTGA (TGA : FTGAFileHeader) (img : FRuntimeImageData)
    (payloadOk : Bool) : Option FRuntimeImageData :=
  if !payloadOk then none
  else if TGA.ImageTypeCode == 3 then
    if TGA.BitsPerPixel == 8 then
      some { img with SizeX := TGA.Width, SizeY := TGA.Height,
                      Format := .TSF_G8, CompressionSettings := .TC_Grayscale }
    else none
  else
    some { img with SizeX := TGA.Width, SizeY := TGA.Height, Format := .TSF_BGRA8 }

/-- The body of the TGA branch of `ImportBufferAsImage`, entered once the
header guard has accepted the buffer (RuntimeImageUtils.cpp lines 255–275):
resolution check, decompression, and the forcing of grayscale TGAs to the
linear color space. -/
def tgaBody (gmax : Nat) (TGA : FTGAFileHeader) (payloadOk : Bool)
    (img : FRuntimeImageData) (err : String) : ImportOutcome :=
  if !(isImportResolutionValid gmax TGA.Width TGA.Height true) then
    { ret := false, img, err := resolutionNotSupportedError TGA.Width TGA.Height }
  else
    match decompressTGA TGA img payloadOk with
    | some img1 =>
      -- default grayscales to linear as they wont get compression otherwise
      let img2 :=
        if img1.CompressionSettings == .TC_Grayscale && TGA.ImageTypeCode == 3 then
          { img1 with SRGB := false }
        else img1
      { ret := true, img := img2, err }
    | none =>
      { ret := false, img, err := "Failed to decompress TGA." }

/-- The full TGA branch: header guard, then `tgaBody`; a buffer the guard
rejects gets the unsupported-format error. -/
def tgaPath (gmax : Nat) (length : Nat) (TGA : FTGAFileHeader) (payloadOk : Bool)
    (img : FRuntimeImageData) (err : String) : ImportOutcome :=
  if tgaHeaderAccepted length TGA then tgaBody gmax TGA payloadOk img err
  else { ret := false, img, err := "TGA file contains data in an unsupported format." }

/-- Everything `ImportBufferAsImage` observes about its input buffer through
its collaborators: the three image wrappers, the buffer length, the leading
bytes reinterpreted as a TGA header, and the TGA payload decodability. -/
structure ImportEnv where
  png : WrapperState
  jpeg : WrapperState
  bmp : WrapperState
  length : Nat
  tga : FTGAFileHeader
  tgaPayloadOk : Bool
  deriving DecidableEq, Repr

/-- `FRuntimeImageUtils::ImportBufferAsImage`: tries the PNG, JPEG and BMP
wrappers on the compressed bytes in that order; a buffer recognized by none
of them is treated as TGA. `img` and `err` are the values of the
by-reference `OutImage`/`OutError` arguments on entry. -/
def importBufferAsImage (gmax : Nat) (env : ImportEnv) (img : FRuntimeImageData)
    (err : String) : ImportOutcome :=
  if env.png.accepts then pngPath gmax env.png img err
  else if env.jpeg.accepts then jpegPath gmax env.jpeg img err
  else if env.bmp.accepts then bmpPath gmax env.bmp img err
  else tgaPath gmax env.length env.tga env.tgaPayloadOk img err

/-- The filesize cap of `ImportFileAsImage`: `MAX_FILESIZE_BYTES`. -/
def MAX_FILESIZE_BYTES : Int := 999999999

/-- The error text `Image does not exist: %s`. -/
def imageDoesNotExistError (name : String) : String :=
  "Image does not exist: " ++ name

/-- The error text `Image filesize > %d MBs): %s`. -/
def imageFilesizeError (name : String) : String :=
  "Image filesize > " ++ toString MAX_FILESIZE_BYTES ++ " MBs): " ++ name

/-- The error text `Image I/O error: %s`. -/
def imageReadFailedError (name : String) : String :=
  "Image I/O error: " ++ name

/-- Everything `ImportFileAsImage` observes about the file system
(`IFileManager` / `FFileHelper`): existence, byte size, whether
`LoadFileToArray` succeeds, the stat-data timestamps, and the decode
environment of the loaded bytes. -/
structure FileEnv where
  imageFilename : String
  fileExists : Bool
  fileSize : Int
  loadOk : Bool
  creationTime : Int
  modificationTime : Int
  buffer : ImportEnv
  deriving DecidableEq, Repr

/-- Outcome of `ImportFileAsImage` (a `void` function): the final values of
the by-reference `OutImage` and `OutError` arguments. -/
structure FileOutcome where
  img : FRuntimeImageData
  err : String
  deriving DecidableEq, Repr

/-- `FRuntimeImageUtils::ImportFileAsImage`: existence check, filesize cap,
file read, timestamp stamping, then buffer decode. -/
def importFileAsImage (gmax : Nat) (fs : FileEnv) (img : FRuntimeImageData)
    (err : String) : FileOutcome :=
  if !fs.fileExists then
    { img, err := imageDoesNotExistError fs.imageFilename }
  else if fs.fileSize > MAX_FILESIZE_BYTES then
    { img, err := imageFilesizeError fs.imageFilename }
  else if !fs.loadOk then
    { img, err := imageReadFailedError fs.imageFilename }
  else
    let img := { img with ModificationTime := max fs.creationTime fs.modificationTime }
    let r := importBufferAsImage gmax fs.buffer img err
    { img := r.img, err := r.err }

/-- `FTransformImageParams` (RuntimeImageReader.h). Percent sizes are `int32`
properties clamped to `[0, 100]` by the editor but settable to any `int32`
from code, hence `Int`. -/
structure FTransformImageParams where
  bForUI : Bool := true
  PercentSizeX : Int := 100
  PercentSizeY : Int := 100
  deriving DecidableEq, Repr

/-- `FTransformImageParams::IsPercentSizeValid`. -/
def FTransformImageParams.IsPercentSizeValid (p : FTransformImageParams) : Bool :=
  p.PercentSizeX > 0 && p.PercentSizeX < 100 && p.PercentSizeY > 0 && p.PercentSizeY < 100

/-- The fields of the `UTexture2D` object that `CreateDummyTexture` fills in:
the platform data dimensions, the chosen pixel format, the single mip's
dimensions and the streaming flag. -/
structure DummyTexture where
  SizeX : Nat
  SizeY : Nat
  PixelFormat : EPixelFormat
  MipSizeX : Nat
  MipSizeY : Nat
  NeverStream : Bool
  deriving DecidableEq, Repr

/-- `FRuntimeImageUtils::CreateDummyTexture`. The filename argument only
names the transient object and is omitted; the function receives no image
dimensions and hardwires every size field to 1. -/
def createDummyTexture (ImageFormat : ETextureSourceFormat) : DummyTexture :=
  let PixelFormat : EPixelFormat :=
    match ImageFormat with
    | .TSF_G8 => .PF_G8
    | .TSF_G16 => .PF_G16
    | .TSF_BGRA8 => .PF_B8G8R8A8
    | .TSF_BGRE8 => .PF_B8G8R8A8
    | .TSF_RGBA16 => .PF_R16G16B16A16_SINT
    | .TSF_RGBA16F => .PF_FloatRGBA
    | _ => .PF_B8G8R8A8
  { SizeX := 1, SizeY := 1, PixelFormat, MipSizeX := 1, MipSizeY := 1, NeverStream := true }

/-! ## Concrete sample inputs -/

/-- A wrapper that does not recognize the buffer. -/
def noWrap : WrapperState :=
  { accepts := false, width := 0, height := 0, bitDepth := 0, format := .Invalid,
    getRawOk := false }

/-- A PNG wrapper reporting a 4×4 8-bit grayscale image. -/
def pngGray4x4 : WrapperState :=
  { accepts := true, width := 4, height := 4, bitDepth := 8, format := .Gray,
    getRawOk := true }

/-- A PNG wrapper reporting a 4×4 16-bit grayscale image. -/
def pngGray16x4 : WrapperState :=
  { accepts := true, width := 4, height := 4, bitDepth := 16, format := .Gray,
    getRawOk := true }

/-- A TGA header: uncompressed 8-bit grayscale (type 3), 4×4. -/
def tgaGray8Header : FTGAFileHeader :=
  { ColorMapType := 0, ImageTypeCode := 3, BitsPerPixel := 8, Width := 4, Height := 4 }

/-- An all-zero TGA header (color-map type 0, image type 0): not accepted. -/
def tgaZeroHeader : FTGAFileHeader :=
  { ColorMapType := 0, ImageTypeCode := 0, BitsPerPixel := 0, Width := 0, Height := 0 }

/-- A buffer recognized by no wrapper, carrying an 8-bit grayscale TGA. -/
def tgaGray8Env : ImportEnv :=
  { png := noWrap, jpeg := noWrap, bmp := noWrap, length := 100,
    tga := tgaGray8Header, tgaPayloadOk := true }

/-- A buffer recognized by nothing at all. -/
def unrecognizedEnv : ImportEnv :=
  { png := noWrap, jpeg := noWrap, bmp := noWrap, length := 100,
    tga := tgaZeroHeader, tgaPayloadOk := true }

/-- A buffer recognized by the PNG wrapper as 4×4 8-bit grayscale. -/
def pngGray8Env : ImportEnv :=
  { png := pngGray4x4, jpeg := noWrap, bmp := noWrap, length := 100,
    tga := tgaZeroHeader, tgaPayloadOk := false }

/-- A buffer recognized by the PNG wrapper as 4×4 16-bit grayscale. -/
def pngGray16Env : ImportEnv :=
  { png := pngGray16x4, jpeg := noWrap, bmp := noWrap, length := 100,
    tga := tgaZeroHeader, tgaPayloadOk := false }

/-- A file whose creation time (10) is later than its modification time (5),
holding the 4×4 grayscale PNG. -/
def newerCreationFile : FileEnv :=
  { imageFilename := "a.png", fileExists := true, fileSize := 10, loadOk := true,
    creationTime := 10, modificationTime := 5, buffer := pngGray8Env }

/-- The default-initialized out-image argument. -/
def emptyImage : FRuntimeImageData := {}

/-- A file that does not exist. -/
def missingFile : FileEnv :=
  { imageFilename := "missing.png", fileExists := false, fileSize := 0, loadOk := false,
    creationTime := 0, modificationTime := 0, buffer := unrecognizedEnv }

/-- A 4×4 decoded BGRA-8 image. -/
def bgra4x4Image : FRuntimeImageData :=
  { SizeX := 4, SizeY := 4, Format := .TSF_BGRA8, SRGB := true,
    CompressionSettings := .TC_Default, ModificationTime := 0 }

/-! ## Helper lemmas -/

/-- Two strings of different lengths are different. -/
theorem ne_of_length_ne {s t : String} (h : s.length ≠ t.length) : s ≠ t :=
  fun he => h (congrArg String.length he)

/-- Appending to a non-empty string yields a non-empty string. -/
theorem append_ne_empty {s : String} (t : String) (h : s.length ≠ 0) : s ++ t ≠ "" := by
  apply ne_of_length_ne
  simp only [String.length_append]
  intro hc
  apply h
  have h0 : ("" : String).length = 0 := rfl
  omega

/-- The resolution error text is never empty. -/
theorem resolutionNotSupportedError_ne_empty (w h : Nat) :
    resolutionNotSupportedError w h ≠ "" := by
  apply ne_of_length_ne
  simp only [resolutionNotSupportedError, String.length_append]
  intro hc
  have h1 : ("Texture resolution is not supported: " : String).length = 37 := by decide
  have h0 : ("" : String).length = 0 := rfl
  omega

/-- Characterization of `isImportResolutionValid` as a conjunction of bounds. -/
theorem isImportResolutionValid_iff (gmax W H : Nat) (npot : Bool) :
    isImportResolutionValid gmax W H npot = true ↔
      (W ≤ 8192 ∧ H ≤ 8192 ∧ W ≤ 2 ^ (gmax - 1) ∧ H ≤ 2 ^ (gmax - 1) ∧
        (npot = true ∨ (isPowerOfTwo W = true ∧ isPowerOfTwo H = true))) := by
  have hs : (1 : Nat) <<< (gmax - 1) = 2 ^ (gmax - 1) := by
    simp [Nat.shiftLeft_eq]
  simp only [isImportResolutionValid, hs]
  generalize 2 ^ (gmax - 1) = M
  cases npot <;> cases hw : isPowerOfTwo W <;> cases hh : isPowerOfTwo H <;>
    split_ifs <;> simp_all <;> omega

/-- The PNG branch never changes the image's timestamp field. -/
theorem pngPath_modificationTime (gmax : Nat) (png : WrapperState)
    (img : FRuntimeImageData) (err : String) :
    (pngPath gmax png img err).img.ModificationTime = img.ModificationTime := by
  unfold pngPath FRuntimeImageData.init2D
  by_cases h1 : isImportResolutionValid gmax png.width png.height true = true <;>
    by_cases h2 : (pngSelectFormat png.format png.bitDepth).2.2 = 16 <;>
    by_cases h3 : (pngSelectFormat png.format png.bitDepth).1 = ETextureSourceFormat.TSF_Invalid <;>
    by_cases h4 : png.getRawOk = true <;>
    simp [h1, h2, h3, h4]

/-- The JPEG branch never changes the image's timestamp field. -/
theorem jpegPath_modificationTime (gmax : Nat) (jpeg : WrapperState)
    (img : FRuntimeImageData) (err : String) :
    (jpegPath gmax jpeg img err).img.ModificationTime = img.ModificationTime := by
  unfold jpegPath FRuntimeImageData.init2D
  by_cases h1 : isImportResolutionValid gmax jpeg.width jpeg.height true = true <;>
    by_cases h2 : (jpegSelectFormat jpeg.format jpeg.bitDepth).1 = ETextureSourceFormat.TSF_Invalid <;>
    by_cases h3 : jpeg.getRawOk = true <;>
    simp [h1, h2, h3]

/-- The BMP branch never changes the image's timestamp field. -/
theorem bmpPath_modificationTime (gmax : Nat) (bmp : WrapperState)
    (img : FRuntimeImageData) (err : String) :
    (bmpPath gmax bmp img err).img.ModificationTime = img.ModificationTime := by
  unfold bmpPath FRuntimeImageData.init2D
  by_cases h1 : isImportResolutionValid gmax bmp.width bmp.height true = true <;>
    by_cases h2 : bmp.getRawOk = true <;>
    simp [h1, h2]

/-- TGA decompression never changes the image's timestamp field. -/
theorem decompressTGA_modificationTime (TGA : FTGAFileHeader)
    (img : FRuntimeImageData) (payloadOk : Bool) (i : FRuntimeImageData)
    (h : decompressTGA TGA img payloadOk = some i) :
    i.ModificationTime = img.ModificationTime := by
  unfold decompressTGA at h
  split_ifs at h <;>
    first
      | exact Option.noConfusion h
      | (injection h with h2; subst h2; rfl)

/-- The TGA decode body never changes the image's timestamp field. -/
theorem tgaBody_modificationTime (gmax : Nat) (TGA : FTGAFileHeader)
    (payloadOk : Bool) (img : FRuntimeImageData) (err : String) :
    (tgaBody gmax TGA payloadOk img err).img.ModificationTime = img.ModificationTime := by
  unfold tgaBody
  split_ifs
  · simp
  · rcases h : decompressTGA TGA img payloadOk with _ | img1
    · simp only [h]
    · have hm := decompressTGA_modificationTime TGA img payloadOk img1 h
      simp only [h]
      split_ifs <;> simp [hm]

/-- `ImportBufferAsImage` never changes the image's timestamp field: every
branch either leaves the image untouched or rewrites only dimensions,
format, color-space flag and compression hint. -/
theorem importBufferAsImage_modificationTime (gmax : Nat) (env : ImportEnv)
    (img : FRuntimeImageData) (err : String) :
    (importBufferAsImage gmax env img err).img.ModificationTime = img.ModificationTime := by
  unfold importBufferAsImage tgaPath
  split_ifs
  · exact pngPath_modificationTime gmax env.png img err
  · exact jpegPath_modificationTime gmax env.jpeg img err
  · exact bmpPath_modificationTime gmax env.bmp img err
  · exact tgaBody_modificationTime gmax env.tga env.tgaPayloadOk img err
  · simp

/-! ## C1 -/

/-- C1: `IsImportResolutionValid(Width, Height, bAllowNonPowerOfTwo)` returns
true exactly when both dimensions are at most 8192, both are at most
`2^(GMaxTextureMipCount-1)`, and either non-power-of-two is allowed or both
dimensions are powers of two. Every import path of `ImportBufferAsImage`
invokes the check with `bAllowNonPowerOfTwo = true` (visible here in that
each path's rejection is exactly failure of the check instantiated at
`true`); in particular decoded dimensions 16385×16385 always fail the check
and are rejected with the resolution error, and 8192×8192 passes the check
on any platform whose `GMaxTextureMipCount` is at least 14. -/
theorem C1_import_resolution_validation (gmax : Nat) (h14 : 14 ≤ gmax) :
    (∀ (W H : Nat) (npot : Bool),
      isImportResolutionValid gmax W H npot = true ↔
        (W ≤ 8192 ∧ H ≤ 8192 ∧ W ≤ 2 ^ (gmax - 1) ∧ H ≤ 2 ^ (gmax - 1) ∧
          (npot = true ∨ (isPowerOfTwo W = true ∧ isPowerOfTwo H = true))))
    ∧ isImportResolutionValid gmax 16385 16385 true = false
    ∧ isImportResolutionValid gmax 8192 8192 true = true
    ∧ (∀ (env : ImportEnv) (img : FRuntimeImageData) (err : String),
        env.png.accepts = true →
        isImportResolutionValid gmax env.png.width env.png.height true = false →
        importBufferAsImage gmax env img err =
          { ret := false, img,
            err := resolutionNotSupportedError env.png.width env.png.height })
    ∧ (∀ (env : ImportEnv) (img : FRuntimeImageData) (err : String),
        env.png.accepts = false → env.jpeg.accepts = true →
        isImportResolutionValid gmax env.jpeg.width env.jpeg.height true = false →
        importBufferAsImage gmax env img err =
          { ret := false, img,
            err := resolutionNotSupportedError env.jpeg.width env.jpeg.height })
    ∧ (∀ (env : ImportEnv) (img : FRuntimeImageData) (err : String),
        env.png.accepts = false → env.jpeg.accepts = false → env.bmp.accepts = true →
        isImportResolutionValid gmax env.bmp.width env.bmp.height true = false →
        importBufferAsImage gmax env img err =
          { ret := false, img,
            err := resolutionNotSupportedError env.bmp.width env.bmp.height })
    ∧ (∀ (env : ImportEnv) (img : FRuntimeImageData) (err : String),
        env.png.accepts = false → env.jpeg.accepts = false → env.bmp.accepts = false →
        tgaHeaderAccepted env.length env.tga = true →
        isImportResolutionValid gmax env.tga.Width env.tga.Height true = false →
        importBufferAsImage gmax env img err =
          { ret := false, img,
            err := resolutionNotSupportedError env.tga.Width env.tga.Height }) := by
  refine ⟨isImportResolutionValid_iff gmax, ?_, ?_, ?_, ?_, ?_, ?_⟩
  · rcases h : isImportResolutionValid gmax 16385 16385 true with _ | _
    · rfl
    · have := (isImportResolutionValid_iff gmax 16385 16385 true).mp h
      omega
  · refine (isImportResolutionValid_iff gmax 8192 8192 true).mpr ⟨le_refl _, le_refl _, ?_, ?_, Or.inl rfl⟩
    · calc (8192 : Nat) = 2 ^ 13 := by norm_num
        _ ≤ 2 ^ (gmax - 1) := Nat.pow_le_pow_right (by norm_num) (by omega)
    · calc (8192 : Nat) = 2 ^ 13 := by norm_num
        _ ≤ 2 ^ (gmax - 1) := Nat.pow_le_pow_right (by norm_num) (by omega)
  · intro env img err hp hres
    simp [importBufferAsImage, pngPath, hp, hres]
  · intro env img err hp hj hres
    simp [importBufferAsImage, jpegPath, hp, hj, hres]
  · intro env img err hp hj hb hres
    simp [importBufferAsImage, bmpPath, hp, hj, hb, hres]
  · intro env img err hp hj hb hacc hres
    simp [importBufferAsImage, tgaPath, tgaBody, hp, hj, hb, hacc, hres]

/-- C1 witness: concrete instantiation at `GMaxTextureMipCount = 14`. -/
theorem C1_import_resolution_validation_witness :
    isImportResolutionValid 14 16385 16385 true = false ∧
    isImportResolutionValid 14 8192 8192 true = true :=
  ⟨(C1_import_resolution_validation 14 (by decide)).2.1,
   (C1_import_resolution_validation 14 (by decide)).2.2.1⟩

/-! ## C2 -/

/-- C2: when none of the PNG/JPEG/BMP wrappers recognizes the buffer,
`ImportBufferAsImage` accepts it as TGA exactly when the buffer is at least
one TGA file header long and the header satisfies (ColorMapType = 0 and
ImageTypeCode ∈ {2, 3, 10}) or (ColorMapType = 1 and ImageTypeCode = 1 and
BitsPerPixel = 8) — in which case it proceeds into the TGA decode body —
while any other type/color-map combination returns false with the
unsupported-format error text. -/
theorem C2_tga_acceptance (gmax : Nat) (env : ImportEnv) (img : FRuntimeImageData)
    (err : String) (hp : env.png.accepts = false) (hj : env.jpeg.accepts = false)
    (hb : env.bmp.accepts = false) :
    (tgaHeaderAccepted env.length env.tga = true ↔
      (tgaHeaderSize ≤ env.length ∧
        ((env.tga.ColorMapType = 0 ∧
            (env.tga.ImageTypeCode = 2 ∨ env.tga.ImageTypeCode = 3 ∨
              env.tga.ImageTypeCode = 10)) ∨
          (env.tga.ColorMapType = 1 ∧ env.tga.ImageTypeCode = 1 ∧
            env.tga.BitsPerPixel = 8))))
    ∧ (tgaHeaderAccepted env.length env.tga = true →
        importBufferAsImage gmax env img err =
          tgaBody gmax env.tga env.tgaPayloadOk img err)
    ∧ (tgaHeaderAccepted env.length env.tga = false →
        importBufferAsImage gmax env img err =
          { ret := false, img,
            err := "TGA file contains data in an unsupported format." }) := by
  refine ⟨?_, ?_, ?_⟩
  · simp only [tgaHeaderAccepted, tgaHeaderSize, Bool.and_eq_true, Bool.or_eq_true,
      beq_iff_eq, decide_eq_true_eq]
    omega
  · intro h
    simp [importBufferAsImage, tgaPath, hp, hj, hb, h]
  · intro h
    simp [importBufferAsImage, tgaPath, hp, hj, hb, h]

/-- C2 witness: a grayscale type-3 TGA header on a 100-byte buffer is
accepted and routed into the TGA decode body. -/
theorem C2_tga_acceptance_witness :
    importBufferAsImage 14 tgaGray8Env emptyImage "" =
      tgaBody 14 tgaGray8Header true emptyImage "" :=
  (C2_tga_acceptance 14 tgaGray8Env emptyImage "" rfl rfl rfl).2.1 (by decide)

/-! ## C3 -/

/-- C3 counterexample: an 8-bit grayscale TGA container (color-map type 0,
image type 3) imports successfully and carries the canonical grayscale-8
format, but its gamma-encoded color-space flag ends up `false` — the
grayscale-TGA branch forces linear — not `true` as the claim states for
every supported container. -/
theorem C3_gray8_srgb_counterexample :
    (importBufferAsImage 14 tgaGray8Env emptyImage "").ret = true ∧
    (importBufferAsImage 14 tgaGray8Env emptyImage "").img.Format = .TSF_G8 ∧
    (importBufferAsImage 14 tgaGray8Env emptyImage "").img.SRGB = false := by
  decide

/-- C3 amended: on the PNG and JPEG wrapper paths a successful import of an
8-bit grayscale container yields canonical grayscale-8 with the
gamma-encoded flag true; on the TGA path a type-3 grayscale container also
decodes to grayscale-8 but its gamma-encoded flag is forced to false. -/
theorem C3_gray8_dispatch (gmax : Nat) (env : ImportEnv) (img : FRuntimeImageData)
    (err : String) :
    (env.png.accepts = true → env.png.format = .Gray → env.png.bitDepth ≤ 8 →
      (importBufferAsImage gmax env img err).ret = true →
      (importBufferAsImage gmax env img err).img.Format = .TSF_G8 ∧
        (importBufferAsImage gmax env img err).img.SRGB = true)
    ∧ (env.png.accepts = false → env.jpeg.accepts = true → env.jpeg.format = .Gray →
        env.jpeg.bitDepth ≤ 8 →
        (importBufferAsImage gmax env img err).ret = true →
        (importBufferAsImage gmax env img err).img.Format = .TSF_G8 ∧
          (importBufferAsImage gmax env img err).img.SRGB = true)
    ∧ (env.png.accepts = false → env.jpeg.accepts = false → env.bmp.accepts = false →
        env.tga.ImageTypeCode = 3 →
        (importBufferAsImage gmax env img err).ret = true →
        (importBufferAsImage gmax env img err).img.Format = .TSF_G8 ∧
          (importBufferAsImage gmax env img err).img.SRGB = false) := by
  refine ⟨?_, ?_, ?_⟩
  · intro hp hf hbd hret
    by_cases hres : isImportResolutionValid gmax env.png.width env.png.height true = true
    · by_cases hraw : env.png.getRawOk = true
      · simp [importBufferAsImage, pngPath, pngSelectFormat, FRuntimeImageData.init2D,
          hp, hf, hbd, hres, hraw]
      · simp [importBufferAsImage, pngPath, pngSelectFormat,
          hp, hf, hbd, hres, hraw] at hret
    · simp [importBufferAsImage, pngPath, hp, hres] at hret
  · intro hp hj hf hbd hret
    by_cases hres : isImportResolutionValid gmax env.jpeg.width env.jpeg.height true = true
    · by_cases hraw : env.jpeg.getRawOk = true
      · simp [importBufferAsImage, jpegPath, jpegSelectFormat, FRuntimeImageData.init2D,
          hp, hj, hf, hbd, hres, hraw]
      · simp [importBufferAsImage, jpegPath, jpegSelectFormat,
          hp, hj, hf, hbd, hres, hraw] at hret
    · simp [importBufferAsImage, jpegPath, hp, hj, hres] at hret
  · intro hp hj hb ht hret
    by_cases hacc : tgaHeaderAccepted env.length env.tga = true
    · by_cases hres : isImportResolutionValid gmax env.tga.Width env.tga.Height true = true
      · by_cases hpk : env.tgaPayloadOk = true
        · by_cases hbpp : env.tga.BitsPerPixel = 8
          · simp [importBufferAsImage, tgaPath, tgaBody, decompressTGA,
              hp, hj, hb, hacc, hres, hpk, ht, hbpp]
          · simp [importBufferAsImage, tgaPath, tgaBody, decompressTGA,
              hp, hj, hb, hacc, hres, hpk, ht, hbpp] at hret
        · simp [importBufferAsImage, tgaPath, tgaBody, decompressTGA,
            hp, hj, hb, hacc, hres, hpk] at hret
      · simp [importBufferAsImage, tgaPath, tgaBody, hp, hj, hb, hacc, hres] at hret
    · simp [importBufferAsImage, tgaPath, hp, hj, hb, hacc] at hret

/-- C3 witness: the 4×4 8-bit grayscale PNG imports as grayscale-8 with the
gamma-encoded flag true. -/
theorem C3_gray8_dispatch_witness :
    (importBufferAsImage 14 pngGray8Env emptyImage "").img.Format = .TSF_G8 ∧
    (importBufferAsImage 14 pngGray8Env emptyImage "").img.SRGB = true :=
  (C3_gray8_dispatch 14 pngGray8Env emptyImage "").1 rfl rfl (by decide) (by decide)

/-! ## C4 -/

/-- C4: a 16-bit grayscale container is rejected as unsupported on every
path that can report one: the import returns false, leaves the image
untouched and writes a non-empty error — although on the PNG path the
16-bit data is first routed toward canonical RGBA-16 by the format
selection. Covers the PNG and JPEG wrapper paths and the TGA path (type 3
with 16 bits per pixel). -/
theorem C4_gray16_rejected (gmax : Nat) (env : ImportEnv) (img : FRuntimeImageData)
    (err : String) :
    pngSelectFormat .Gray 16 = (.TSF_RGBA16, .RGBA, 16)
    ∧ (env.png.accepts = true → env.png.format = .Gray → env.png.bitDepth = 16 →
        (importBufferAsImage gmax env img err).ret = false ∧
        (importBufferAsImage gmax env img err).img = img ∧
        (importBufferAsImage gmax env img err).err ≠ "")
    ∧ (env.png.accepts = false → env.jpeg.accepts = true → env.jpeg.format = .Gray →
        env.jpeg.bitDepth = 16 →
        (importBufferAsImage gmax env img err).ret = false ∧
        (importBufferAsImage gmax env img err).img = img ∧
        (importBufferAsImage gmax env img err).err ≠ "")
    ∧ (env.png.accepts = false → env.jpeg.accepts = false → env.bmp.accepts = false →
        env.tga.ImageTypeCode = 3 → env.tga.BitsPerPixel = 16 →
        (importBufferAsImage gmax env img err).ret = false ∧
        (importBufferAsImage gmax env img err).img = img ∧
        (importBufferAsImage gmax env img err).err ≠ "") := by
  refine ⟨by decide, ?_, ?_, ?_⟩
  · intro hp hf hbd
    by_cases hres : isImportResolutionValid gmax env.png.width env.png.height true = true
    · simp [importBufferAsImage, pngPath, pngSelectFormat, hp, hf, hbd, hres]
    · simp [importBufferAsImage, pngPath, hp, hres]
      exact resolutionNotSupportedError_ne_empty _ _
  · intro hp hj hf hbd
    by_cases hres : isImportResolutionValid gmax env.jpeg.width env.jpeg.height true = true
    · simp [importBufferAsImage, jpegPath, jpegSelectFormat, hp, hj, hf, hbd, hres]
    · simp [importBufferAsImage, jpegPath, hp, hj, hres]
      exact resolutionNotSupportedError_ne_empty _ _
  · intro hp hj hb ht hbpp
    by_cases hacc : tgaHeaderAccepted env.length env.tga = true
    · by_cases hres : isImportResolutionValid gmax env.tga.Width env.tga.Height true = true
      · by_cases hpk : env.tgaPayloadOk = true
        · simp [importBufferAsImage, tgaPath, tgaBody, decompressTGA,
            hp, hj, hb, hacc, hres, hpk, ht, hbpp]
        · simp [importBufferAsImage, tgaPath, tgaBody, decompressTGA,
            hp, hj, hb, hacc, hres, hpk]
      · simp [importBufferAsImage, tgaPath, tgaBody, hp, hj, hb, hacc, hres]
        exact resolutionNotSupportedError_ne_empty _ _
    · simp [importBufferAsImage, tgaPath, hp, hj, hb, hacc]

/-- C4 witness: the 4×4 16-bit grayscale PNG is rejected with a non-empty
error and an untouched image. -/
theorem C4_gray16_rejected_witness :
    (importBufferAsImage 14 pngGray16Env emptyImage "").ret = false ∧
    (importBufferAsImage 14 pngGray16Env emptyImage "").img = emptyImage ∧
    (importBufferAsImage 14 pngGray16Env emptyImage "").err ≠ "" :=
  (C4_gray16_rejected 14 pngGray16Env emptyImage "").2.1 rfl rfl rfl

/-! ## C5 -/

/-- C5 counterexample: a configuration with both percents equal to 100 —
which the claim deems not a caller error — is rejected by
`IsPercentSizeValid`. -/
theorem C5_percent_100_counterexample :
    FTransformImageParams.IsPercentSizeValid
      { bForUI := true, PercentSizeX := 100, PercentSizeY := 100 } = false := by
  decide

/-- C5 amended: `IsPercentSizeValid` accepts exactly when both percents lie
strictly between 0 and 100; a percent equal to 100 (meaning no resize along
that axis) is rejected by this check just like the out-of-range values. -/
theorem C5_percent_size_valid_iff (p : FTransformImageParams) :
    p.IsPercentSizeValid = true ↔
      (0 < p.PercentSizeX ∧ p.PercentSizeX < 100 ∧
        0 < p.PercentSizeY ∧ p.PercentSizeY < 100) := by
  simp [FTransformImageParams.IsPercentSizeValid, and_assoc]

/-- C5 witness: 50% on both axes is accepted. -/
theorem C5_percent_size_valid_iff_witness :
    FTransformImageParams.IsPercentSizeValid
      { bForUI := true, PercentSizeX := 50, PercentSizeY := 50 } = true :=
  (C5_percent_size_valid_iff
    { bForUI := true, PercentSizeX := 50, PercentSizeY := 50 }).mpr (by decide)

/-! ## C6 -/

/-- C6: `ImportFileAsImage` returns early, with the image untouched and a
non-empty error text distinguishing the case, when (a) the file does not
exist — regardless of the reported size, the read result and the buffer
contents — when (b) the file exists but its size exceeds
`MAX_FILESIZE_BYTES` (999999999) — regardless of the read result and the
buffer contents, i.e. before any bytes are read — and when (c) reading the
bytes fails — regardless of the buffer contents, i.e. without invoking the
decoder; the three error texts are pairwise distinct. -/
theorem C6_file_precheck_errors (gmax : Nat) (fs : FileEnv)
    (img : FRuntimeImageData) (err : String) :
    (fs.fileExists = false →
      ∀ (sz : Int) (lo : Bool) (b : ImportEnv),
        importFileAsImage gmax { fs with fileSize := sz, loadOk := lo, buffer := b } img err =
          { img, err := imageDoesNotExistError fs.imageFilename })
    ∧ (fs.fileExists = true → fs.fileSize > MAX_FILESIZE_BYTES →
        ∀ (lo : Bool) (b : ImportEnv),
          importFileAsImage gmax { fs with loadOk := lo, buffer := b } img err =
            { img, err := imageFilesizeError fs.imageFilename })
    ∧ (fs.fileExists = true → ¬fs.fileSize > MAX_FILESIZE_BYTES → fs.loadOk = false →
        ∀ b : ImportEnv,
          importFileAsImage gmax { fs with buffer := b } img err =
            { img, err := imageReadFailedError fs.imageFilename })
    ∧ imageDoesNotExistError fs.imageFilename ≠ ""
    ∧ imageFilesizeError fs.imageFilename ≠ ""
    ∧ imageReadFailedError fs.imageFilename ≠ ""
    ∧ imageDoesNotExistError fs.imageFilename ≠ imageFilesizeError fs.imageFilename
    ∧ imageDoesNotExistError fs.imageFilename ≠ imageReadFailedError fs.imageFilename
    ∧ imageFilesizeError fs.imageFilename ≠ imageReadFailedError fs.imageFilename := by
  have k1 : ("Image does not exist: " : String).length = 22 := rfl
  have k2 : ("Image I/O error: " : String).length = 17 := rfl
  have k3 : ("Image filesize > " : String).length = 17 := rfl
  have k4 : (" MBs): " : String).length = 7 := rfl
  have k5 : (toString MAX_FILESIZE_BYTES).length = 9 := rfl
  have k0 : ("" : String).length = 0 := rfl
  refine ⟨?_, ?_, ?_, ?_, ?_, ?_, ?_, ?_, ?_⟩
  · intro h sz lo b
    simp [importFileAsImage, h]
  · intro he hsz lo b
    simp [importFileAsImage, he, hsz]
  · intro he hsz hl b
    simp [importFileAsImage, he, hsz, hl]
  · apply ne_of_length_ne
    simp only [imageDoesNotExistError, String.length_append, k0, k1]
    omega
  · apply ne_of_length_ne
    simp only [imageFilesizeError, String.length_append, k0, k3, k4, k5]
    omega
  · apply ne_of_length_ne
    simp only [imageReadFailedError, String.length_append, k0, k2]
    omega
  · apply ne_of_length_ne
    simp only [imageDoesNotExistError, imageFilesizeError, String.length_append,
      k1, k3, k4, k5]
    omega
  · apply ne_of_length_ne
    simp only [imageDoesNotExistError, imageReadFailedError, String.length_append, k1, k2]
    omega
  · apply ne_of_length_ne
    simp only [imageFilesizeError, imageReadFailedError, String.length_append,
      k2, k3, k4, k5]
    omega

/-- C6 witness: a missing file produces exactly the does-not-exist error and
an untouched image, whatever the buffer would have decoded to. -/
theorem C6_file_precheck_errors_witness :
    importFileAsImage 14
        { missingFile with fileSize := 0, loadOk := false, buffer := unrecognizedEnv }
        emptyImage "" =
      { img := emptyImage, err := imageDoesNotExistError "missing.png" } :=
  (C6_file_precheck_errors 14 missingFile emptyImage "").1 rfl 0 false unrecognizedEnv

/-! ## C7 -/

/-- C7 counterexample: `CreateDummyTexture` receives no image dimensions and
hardwires the created texture (and its single mip) to 1×1: for a 4×4
decoded image the created texture's size differs from the image's size,
refuting "sized to the DecodedImage's dimensions". -/
theorem C7_dummy_texture_size_counterexample :
    (createDummyTexture bgra4x4Image.Format).SizeX ≠ bgra4x4Image.SizeX ∧
    (createDummyTexture bgra4x4Image.Format).SizeY ≠ bgra4x4Image.SizeY := by
  decide

/-- C7 amended: `CreateDummyTexture` creates a transient 1×1 placeholder
texture — the decoded dimensions are not passed to it — and maps the
canonical format tag to the best-matching platform pixel format:
TSF_G8→PF_G8, TSF_G16→PF_G16, TSF_BGRA8→PF_B8G8R8A8, TSF_BGRE8→PF_B8G8R8A8,
TSF_RGBA16→PF_R16G16B16A16_SINT, TSF_RGBA16F→PF_FloatRGBA, and any other
tag→PF_B8G8R8A8. -/
theorem C7_dummy_texture_format (fmt : ETextureSourceFormat) :
    ((createDummyTexture fmt).SizeX = 1 ∧ (createDummyTexture fmt).SizeY = 1 ∧
      (createDummyTexture fmt).MipSizeX = 1 ∧ (createDummyTexture fmt).MipSizeY = 1)
    ∧ (createDummyTexture .TSF_G8).PixelFormat = .PF_G8
    ∧ (createDummyTexture .TSF_G16).PixelFormat = .PF_G16
    ∧ (createDummyTexture .TSF_BGRA8).PixelFormat = .PF_B8G8R8A8
    ∧ (createDummyTexture .TSF_BGRE8).PixelFormat = .PF_B8G8R8A8
    ∧ (createDummyTexture .TSF_RGBA16).PixelFormat = .PF_R16G16B16A16_SINT
    ∧ (createDummyTexture .TSF_RGBA16F).PixelFormat = .PF_FloatRGBA
    ∧ (createDummyTexture .TSF_Invalid).PixelFormat = .PF_B8G8R8A8 := by
  refine ⟨?_, by decide, by decide, by decide, by decide, by decide, by decide, by decide⟩
  cases fmt <;> exact ⟨rfl, rfl, rfl, rfl⟩

/-! ## C8 -/

/-- C8 counterexample: for a file whose creation stat time (10) is later
than its last-modified stat time (5), the import succeeds (empty error,
grayscale-8 image produced) but the image's timestamp is not the
last-modified time: the code stores the max of the two stat times. -/
theorem C8_timestamp_counterexample :
    (importFileAsImage 14 newerCreationFile emptyImage "").err = "" ∧
    (importFileAsImage 14 newerCreationFile emptyImage "").img.Format = .TSF_G8 ∧
    (importFileAsImage 14 newerCreationFile emptyImage "").img.ModificationTime ≠
      newerCreationFile.modificationTime := by
  decide

/-- C8 amended: whenever the source file exists, passes the size cap and its
bytes are read, the image coming out of `ImportFileAsImage` — in particular
any DecodedImage produced — carries a timestamp equal to the maximum of the
source file's creation and last-modified stat times. -/
theorem C8_timestamp_is_max (gmax : Nat) (fs : FileEnv) (img : FRuntimeImageData)
    (err : String) (he : fs.fileExists = true)
    (hs : ¬fs.fileSize > MAX_FILESIZE_BYTES) (hl : fs.loadOk = true) :
    (importFileAsImage gmax fs img err).img.ModificationTime =
      max fs.creationTime fs.modificationTime := by
  simp [importFileAsImage, he, hs, hl, importBufferAsImage_modificationTime]

/-- C8 witness: for creation time 10 and last-modified time 5 the stored
timestamp is `max 10 5`. -/
theorem C8_timestamp_is_max_witness :
    (importFileAsImage 14 newerCreationFile emptyImage "").img.ModificationTime =
      max (10 : Int) 5 :=
  C8_timestamp_is_max 14 newerCreationFile emptyImage "" rfl (by decide) rfl

/-! ## C9 -/

/-- The PNG branch returns false exactly with a non-empty error written and
returns true with the error untouched. -/
theorem pngPath_error_discipline (gmax : Nat) (png : WrapperState)
    (img : FRuntimeImageData) (err : String) :
    ((pngPath gmax png img err).ret = false → (pngPath gmax png img err).err ≠ "")
    ∧ ((pngPath gmax png img err).ret = true → (pngPath gmax png img err).err = err) := by
  unfold pngPath
  by_cases h1 : isImportResolutionValid gmax png.width png.height true = true <;>
    by_cases h2 : (pngSelectFormat png.format png.bitDepth).2.2 = 16 <;>
    by_cases h3 : (pngSelectFormat png.format png.bitDepth).1 = ETextureSourceFormat.TSF_Invalid <;>
    by_cases h4 : png.getRawOk = true <;>
    simp [h1, h2, h3, h4, resolutionNotSupportedError_ne_empty]

/-- The JPEG branch returns false exactly with a non-empty error written and
returns true with the error untouched. -/
theorem jpegPath_error_discipline (gmax : Nat) (jpeg : WrapperState)
    (img : FRuntimeImageData) (err : String) :
    ((jpegPath gmax jpeg img err).ret = false → (jpegPath gmax jpeg img err).err ≠ "")
    ∧ ((jpegPath gmax jpeg img err).ret = true → (jpegPath gmax jpeg img err).err = err) := by
  unfold jpegPath
  by_cases h1 : isImportResolutionValid gmax jpeg.width jpeg.height true = true <;>
    by_cases h2 : (jpegSelectFormat jpeg.format jpeg.bitDepth).1 = ETextureSourceFormat.TSF_Invalid <;>
    by_cases h3 : jpeg.getRawOk = true <;>
    simp [h1, h2, h3, resolutionNotSupportedError_ne_empty]

/-- The BMP branch returns false exactly with a non-empty error written and
returns true with the error untouched. -/
theorem bmpPath_error_discipline (gmax : Nat) (bmp : WrapperState)
    (img : FRuntimeImageData) (err : String) :
    ((bmpPath gmax bmp img err).ret = false → (bmpPath gmax bmp img err).err ≠ "")
    ∧ ((bmpPath gmax bmp img err).ret = true → (bmpPath gmax bmp img err).err = err) := by
  unfold bmpPath
  by_cases h1 : isImportResolutionValid gmax bmp.width bmp.height true = true <;>
    by_cases h2 : bmp.getRawOk = true <;>
    simp [h1, h2, resolutionNotSupportedError_ne_empty]

/-- The TGA branch returns false exactly with a non-empty error written and
returns true with the error untouched. -/
theorem tgaPath_error_discipline (gmax : Nat) (length : Nat) (TGA : FTGAFileHeader)
    (payloadOk : Bool) (img : FRuntimeImageData) (err : String) :
    ((tgaPath gmax length TGA payloadOk img err).ret = false →
      (tgaPath gmax length TGA payloadOk img err).err ≠ "")
    ∧ ((tgaPath gmax length TGA payloadOk img err).ret = true →
      (tgaPath gmax length TGA payloadOk img err).err = err) := by
  unfold tgaPath tgaBody
  by_cases hacc : tgaHeaderAccepted length TGA = true
  · by_cases hres : isImportResolutionValid gmax TGA.Width TGA.Height true = true
    · rcases h : decompressTGA TGA img payloadOk with _ | img1
      · simp [hacc, hres, h]
      · simp [hacc, hres, h]
    · simp [hacc, hres, resolutionNotSupportedError_ne_empty]
  · simp [hacc]

/-- C9: `ImportBufferAsImage` returns false exactly when it writes a
non-empty error message: on a false return the final error text is
non-empty, and on a true return the error argument is left exactly as it
was on entry (hence still empty if it was empty) — in particular this holds
on the PNG, JPEG and BMP success paths. -/
theorem C9_error_discipline (gmax : Nat) (env : ImportEnv) (img : FRuntimeImageData)
    (err : String) :
    ((importBufferAsImage gmax env img err).ret = false →
      (importBufferAsImage gmax env img err).err ≠ "")
    ∧ ((importBufferAsImage gmax env img err).ret = true →
      (importBufferAsImage gmax env img err).err = err) := by
  unfold importBufferAsImage
  split_ifs
  · exact pngPath_error_discipline gmax env.png img err
  · exact jpegPath_error_discipline gmax env.jpeg img err
  · exact bmpPath_error_discipline gmax env.bmp img err
  · exact tgaPath_error_discipline gmax env.length env.tga env.tgaPayloadOk img err

/-- C9 witness: an unrecognized buffer returns false and the final error is
non-empty even though it was empty on entry. -/
theorem C9_error_discipline_witness :
    (importBufferAsImage 14 unrecognizedEnv emptyImage "").err ≠ "" :=
  (C9_error_discipline 14 unrecognizedEnv emptyImage "").1 (by decide)

/-! ## C10 -/

/-- C10: `ImportBufferAsImage` tries the container formats in the fixed
order PNG, then JPEG, then BMP, then TGA: the first wrapper that accepts
the compressed bytes determines the decode path, the result then depending
only on that wrapper's state; a buffer recognized by none of the four is
reported with the TGA-specific unsupported-format text regardless of its
contents. -/
theorem C10_dispatch_order (gmax : Nat) (env : ImportEnv) (img : FRuntimeImageData)
    (err : String) :
    (env.png.accepts = true →
      importBufferAsImage gmax env img err = pngPath gmax env.png img err)
    ∧ (env.png.accepts = false → env.jpeg.accepts = true →
      importBufferAsImage gmax env img err = jpegPath gmax env.jpeg img err)
    ∧ (env.png.accepts = false → env.jpeg.accepts = false → env.bmp.accepts = true →
      importBufferAsImage gmax env img err = bmpPath gmax env.bmp img err)
    ∧ (env.png.accepts = false → env.jpeg.accepts = false → env.bmp.accepts = false →
      tgaHeaderAccepted env.length env.tga = false →
      importBufferAsImage gmax env img err =
        { ret := false, img,
          err := "TGA file contains data in an unsupported format." }) := by
  refine ⟨?_, ?_, ?_, ?_⟩
  · intro h1
    simp [importBufferAsImage, h1]
  · intro h1 h2
    simp [importBufferAsImage, h1, h2]
  · intro h1 h2 h3
    simp [importBufferAsImage, h1, h2, h3]
  · intro h1 h2 h3 h4
    simp [importBufferAsImage, tgaPath, h1, h2, h3, h4]

/-- C10 witness: a buffer the PNG wrapper accepts is decoded by the PNG
path. -/
theorem C10_dispatch_order_witness :
    importBufferAsImage 14 pngGray8Env emptyImage "" =
      pngPath 14 pngGray4x4 emptyImage "" :=
  (C10_dispatch_order 14 pngGray8Env emptyImage "").1 rfl

end RuntimeImageLoader
